import Mathlib

/-!
Verification of the data-preparation and year-filter logic of
`src/fertilityandlife.py` against its specification.

The program is embedded shallowly:

* a pandas DataFrame row becomes a `Row` structure; a `NaN` entry of a
  nullable column becomes `none`.  The numeric payloads (`Fertility`,
  `lifeExp`, `pop`) are only ever tested for missingness and copied around
  by the program — no arithmetic is performed on them — so they are
  modelled as `Option Int` (missing / present value);
* `load_data` (lines 9–23) becomes a pure function on `List Row`,
  mirroring the three cleaning steps:
  `dropna(subset=['lifeExp','Fertility'])`, then
  `data.groupby('Country')['pop'].ffill().bfill()`, then
  `data['ID'].fillna('Unknown')`.
  Note the pandas semantics embedded faithfully here: the `.ffill()` is
  applied per `Country` group (in original row order within the group),
  but the `.bfill()` that follows is applied to the *plain Series*
  returned by the groupby ffill, so the backward fill runs over the whole
  column and crosses `Country` boundaries;
* the slider callback `update_plot` inside `setup_slider` (lines 69–74)
  becomes `selectYear` (the pure dataset-filter plus title computation)
  and `update_plot` (the same computation expressed as a state
  transformer over the source/title that the callback assigns to).
-/

/-- One tabular row of the CSV, after parsing.  A pandas `NaN` in a column
is `none`.  Numeric payloads are opaque to the program (no arithmetic is
performed on them), modelled as `Int`. -/
structure Row where
  country : String
  region : String
  year : Int
  fertility : Option Int
  lifeExp : Option Int
  pop : Option Int
  id : Option String
deriving DecidableEq, Repr

/-- `data.dropna(subset=['lifeExp', 'Fertility'])`: a row survives iff both
`lifeExp` and `Fertility` are present. -/
def keepRow (r : Row) : Bool :=
  r.lifeExp.isSome && r.fertility.isSome

/-- First value bound to a country key in the carry list (the state of the
per-group forward fill). -/
def lookupPop (c : String) : List (String × Int) → Option Int
  | [] => none
  | (k, v) :: rest => if k = c then some v else lookupPop c rest

/-- `data.groupby('Country')['pop'].ffill()`: per-country forward fill of
the `pop` column, processed in original row order (pandas groupby keeps the
original order of rows within each group), producing a column aligned with
the rows.  `seen` carries, for each country already encountered, the last
non-missing `pop` seen in that country's rows. -/
def groupFfill : List (String × Int) → List (String × Option Int) → List (Option Int)
  | _, [] => []
  | seen, (c, some p) :: xs => some p :: groupFfill ((c, p) :: seen) xs
  | seen, (c, none) :: xs =>
    match lookupPop c seen with
    | some p => some p :: groupFfill seen xs
    | none => none :: groupFfill seen xs

/-- Plain (ungrouped) forward fill of a column, carrying the last
non-missing value into each missing slot. -/
def ffillSeries : Option Int → List (Option Int) → List (Option Int)
  | _, [] => []
  | carry, none :: xs => carry :: ffillSeries carry xs
  | _, some p :: xs => some p :: ffillSeries (some p) xs

/-- `.bfill()` on a plain pandas Series: each missing slot receives the
next non-missing value of the column.  In the source this is chained after
`groupby('Country')['pop'].ffill()`, whose result is a plain Series, so
this backward fill is NOT per-country: it runs over the whole column. -/
def bfillSeries (xs : List (Option Int)) : List (Option Int) :=
  (ffillSeries none xs.reverse).reverse

/-- `data['pop'] = column`: write a `pop` column back into the rows,
positionally. -/
def setPop : List Row → List (Option Int) → List Row
  | [], _ => []
  | r :: rs, [] => r :: rs
  | r :: rs, v :: vs => { r with pop := v } :: setPop rs vs

/-- `data['ID'] = data['ID'].fillna('Unknown')`, one row at a time: a
missing `ID` becomes the literal string `"Unknown"`, a present `ID` is
kept. -/
def fillID (r : Row) : Row :=
  { r with id := some (r.id.getD "Unknown") }

/-- The cleaning body of `load_data` (lines 18–23 of
`src/fertilityandlife.py`), applied to the parsed rows of the CSV:
drop rows missing `lifeExp` or `Fertility`; forward-fill `pop` per
`Country` then backward-fill the resulting plain column; fill missing
`ID` with `"Unknown"`. -/
def load_data (rows : List Row) : List Row :=
  let d := rows.filter keepRow
  let popNew := bfillSeries (groupFfill [] (d.map (fun r => (r.country, r.pop))))
  (setPop d popNew).map fillID

/-- The fatal failure of the Dataset Preparer: the source cannot be read at
all. -/
inductive DataLoadError where
  | sourceUnreadable
deriving DecidableEq, Repr

/-- Modelled from the spec: the `pd.read_csv(filepath)` boundary of
`load_data` (line 16) — file I/O is outside the embedded fragment.  A
source that cannot be read at all (missing file, unreadable format) is
modelled as `none` and yields the fatal `DataLoadError`; a readable source
yields its parsed rows, in which malformed or absent values already appear
as `none` fields. -/
def read_csv (src : Option (List Row)) : Except DataLoadError (List Row) :=
  match src with
  | none => Except.error DataLoadError.sourceUnreadable
  | some rows => Except.ok rows

/-- `load_data` including its read step: reading failures propagate to the
caller untouched (the function catches nothing), and a readable source is
always cleaned successfully. -/
def load_from_source (src : Option (List Row)) : Except DataLoadError (List Row) :=
  match read_csv src with
  | Except.error e => Except.error e
  | Except.ok rows => Except.ok (load_data rows)

/-- The title string the slider callback assigns:
`f"Life Expectancy vs Fertility in {yr}"`. -/
def titleFor (yr : Int) : String :=
  "Life Expectancy vs Fertility in " ++ toString yr

/-- The pure content of the slider callback `update_plot` (lines 69–74):
`data[data['Year'] == yr]` together with the new title. -/
def selectYear (data : List Row) (yr : Int) : List Row × String :=
  (data.filter (fun r => r.year == yr), titleFor yr)

/-- The mutable presentation state the callback touches: the plot's data
source and title, alongside the full immutable dataset it reads from. -/
structure AppState where
  data : List Row
  sourceData : List Row
  titleText : String
deriving DecidableEq, Repr

/-- The slider callback as a state transformer: recompute the source data
from the full dataset and the selected year, and set the title; the
dataset itself is only read. -/
def update_plot (yr : Int) (s : AppState) : AppState :=
  { s with sourceData := s.data.filter (fun r => r.year == yr),
           titleText := titleFor yr }

/-- The fields of a row that `load_data` never rewrites (everything except
`pop` and `ID`). -/
def coreFields (r : Row) : String × String × Int × Option Int × Option Int :=
  (r.country, r.region, r.year, r.fertility, r.lifeExp)

/-- The two essential fields checked by the dropna filter. -/
def flFields (r : Row) : Option Int × Option Int :=
  (r.fertility, r.lifeExp)

/- Concrete rows used to evaluate the code on specific inputs. -/

/-- Country A: its only row has a missing `pop`. -/
def rowC1A : Row :=
  { country := "A", region := "R", year := 1964,
    fertility := some 2, lifeExp := some 60, pop := none, id := some "a" }

/-- Country B: one row with `pop = 100`. -/
def rowC1B : Row :=
  { country := "B", region := "R", year := 1964,
    fertility := some 3, lifeExp := some 70, pop := some 100, id := some "b" }

/-- Country G, year 1964, missing `pop`. -/
def rowC2G1 : Row :=
  { country := "G", region := "R", year := 1964,
    fertility := some 2, lifeExp := some 60, pop := none, id := some "g" }

/-- Country H, year 1970, `pop = 50`. -/
def rowC2H : Row :=
  { country := "H", region := "R", year := 1970,
    fertility := some 3, lifeExp := some 70, pop := some 50, id := some "h" }

/-- Country G, year 1966, `pop = 100` — the nearest known `pop` of
country G for the 1964 row. -/
def rowC2G2 : Row :=
  { country := "G", region := "R", year := 1966,
    fertility := some 4, lifeExp := some 65, pop := some 100, id := some "g" }

/-- A fully populated row, used as a witness input. -/
def rowW4 : Row :=
  { country := "W", region := "R", year := 1964,
    fertility := some 2, lifeExp := some 60, pop := some 5, id := some "w" }

/-- A row whose year is 1970, used to witness the empty-selection case. -/
def rowW3 : Row :=
  { country := "C", region := "R", year := 1970,
    fertility := some 2, lifeExp := some 60, pop := some 5, id := some "c" }

/-- A row used to witness determinism of the preparer. -/
def rowW8 : Row :=
  { country := "D", region := "R", year := 1964,
    fertility := some 2, lifeExp := none, pop := none, id := none }

/-- A presentation state over an empty dataset. -/
def stateW7a : AppState :=
  { data := [], sourceData := [], titleText := "x" }

/-- A presentation state with the same dataset but different stale view and
title. -/
def stateW7b : AppState :=
  { data := [], sourceData := [], titleText := "y" }

/- Helper lemmas. -/

/-- Unfolded form of `load_data`. -/
theorem load_data_eq (rows : List Row) :
    load_data rows =
      (setPop (rows.filter keepRow)
        (bfillSeries (groupFfill []
          ((rows.filter keepRow).map (fun r => (r.country, r.pop)))))).map fillID :=
  rfl

/-- Writing a `pop` column back leaves every function of the other fields
unchanged, pointwise. -/
theorem setPop_map {α : Type} (f : Row → α)
    (hf : ∀ (r : Row) (v : Option Int), f { r with pop := v } = f r) :
    ∀ (d : List Row) (vs : List (Option Int)), (setPop d vs).map f = d.map f
  | [], vs => by cases vs <;> rfl
  | _ :: _, [] => rfl
  | r :: rs, v :: vs => by
    simp only [setPop, List.map]
    rw [hf, setPop_map f hf rs vs]

/-- Any per-row function that ignores `pop` and `ID` commutes with the whole
of `load_data`: the output column of such a function is exactly its column
over the rows that survive the dropna filter. -/
theorem load_data_map {α : Type} (f : Row → α)
    (hpop : ∀ (r : Row) (v : Option Int), f { r with pop := v } = f r)
    (hid : ∀ r : Row, f (fillID r) = f r) (rows : List Row) :
    (load_data rows).map f = (rows.filter keepRow).map f := by
  rw [load_data_eq, List.map_map]
  have h1 : (f ∘ fillID) = f := funext hid
  rw [h1, setPop_map f hpop]

/- Claim theorems. -/

/-- Claim C1 (code evaluation at the failing input): country A's only row
has a missing `pop` and no other row of country A exists, yet after
`load_data` its `pop` is `100`, borrowed from country B's row by the
ungrouped `.bfill()`.  The claim — that an all-missing country stays
entirely missing and borrows nothing from another country — is therefore
false of the code at this input. -/
theorem claim_C1_code_eval :
    (load_data [rowC1A, rowC1B]).map (fun r => (r.country, r.pop))
      = [("A", some 100), ("B", some 100)]
    ∧ rowC1A.country = "A" ∧ rowC1A.pop = none ∧ rowC1B.country = "B" := by
  decide

/-- Claim C2 (code evaluation at the failing input): country G has a known
`pop` (100, at year 1966), so the claim predicts its missing 1964 slot is
filled with 100, the nearest known value of the same country by year.  The
code instead fills it with 50, taken from country H's row, because the
`.bfill()` runs over the whole column rather than per group. -/
theorem claim_C2_code_eval :
    (load_data [rowC2G1, rowC2H, rowC2G2]).map (fun r => (r.country, r.pop))
      = [("G", some 50), ("H", some 50), ("G", some 100)]
    ∧ rowC2G1.country = "G" ∧ rowC2G1.pop = none ∧ rowC2G1.year = 1964
    ∧ rowC2G2.country = "G" ∧ rowC2G2.pop = some 100 ∧ rowC2G2.year = 1966
    ∧ rowC2H.country = "H" := by
  decide

/-- Claim C3: `selectYear` returns exactly the records of the dataset whose
`Year` equals the requested year, in the dataset's internal order (the view
is a sublist of the dataset), together with the title string
`"Life Expectancy vs Fertility in {year}"`; when nothing matches, the view
is empty and the title still embeds the requested year. -/
theorem claim_C3 (data : List Row) (yr : Int) :
    (∀ r : Row, r ∈ (selectYear data yr).1 ↔ r ∈ data ∧ r.year = yr)
    ∧ List.Sublist (selectYear data yr).1 data
    ∧ (selectYear data yr).2 = "Life Expectancy vs Fertility in " ++ toString yr
    ∧ ((∀ r ∈ data, r.year ≠ yr) → (selectYear data yr).1 = []) := by
  refine ⟨?_, ?_, rfl, ?_⟩
  · intro r
    simp [selectYear, List.mem_filter]
  · exact List.filter_sublist data
  · intro h
    simp only [selectYear]
    apply List.eq_nil_iff_forall_not_mem.mpr
    intro r hr
    rcases List.mem_filter.mp hr with ⟨hmem, hyr⟩
    exact h r hmem (by simpa using hyr)

/-- Witness for C3, at a dataset with no 1964 rows: the view is empty and
the title still embeds 1964. -/
theorem claim_C3_witness :
    (selectYear [rowW3] 1964).1 = []
    ∧ (selectYear [rowW3] 1964).2 = "Life Expectancy vs Fertility in 1964" := by
  refine ⟨(claim_C3 [rowW3] 1964).2.2.2 (by decide), ?_⟩
  rw [(claim_C3 [rowW3] 1964).2.2.1]
  decide

/-- Claim C4: no record in the output of `load_data` has a missing
`Fertility` or a missing `lifeExp`. -/
theorem claim_C4 (rows : List Row) (r : Row) (h : r ∈ load_data rows) :
    r.fertility.isSome = true ∧ r.lifeExp.isSome = true := by
  have hmap := load_data_map flFields (fun _ _ => rfl) (fun _ => rfl) rows
  have h2 : flFields r ∈ (rows.filter keepRow).map flFields := by
    rw [← hmap]
    exact List.mem_map_of_mem flFields h
  rcases List.mem_map.mp h2 with ⟨r2, hr2, he⟩
  have hk := (List.mem_filter.mp hr2).2
  have h3 : r2.fertility = r.fertility ∧ r2.lifeExp = r.lifeExp := by
    simpa [flFields, Prod.ext_iff] using he
  unfold keepRow at hk
  rw [Bool.and_eq_true] at hk
  exact ⟨h3.1 ▸ hk.2, h3.2 ▸ hk.1⟩

/-- Witness for C4 at a concrete retained row. -/
theorem claim_C4_witness :
    rowW4.fertility.isSome = true ∧ rowW4.lifeExp.isSome = true :=
  claim_C4 [rowW4] rowW4 (by decide)

/-- Claim C5: after `load_data` no record has a missing `ID`: the output
`ID` column is, positionally, `some` of the retained input row's `ID` when
present, and exactly the literal `"Unknown"` when the input `ID` was
missing. -/
theorem claim_C5 (rows : List Row) :
    (load_data rows).map (fun r => r.id)
      = (rows.filter keepRow).map (fun r => some (r.id.getD "Unknown")) := by
  rw [load_data_eq, List.map_map]
  have h : ((fun r : Row => r.id) ∘ fillID)
      = (fun r : Row => some (r.id.getD "Unknown")) :=
    funext (fun _ => rfl)
  rw [h, setPop_map (fun r : Row => some (r.id.getD "Unknown")) (fun _ _ => rfl)]

/-- Claim C6: preparation fails exactly when the source cannot be read, the
failure is the fatal `DataLoadError` and no partial dataset is produced;
every readable source is cleaned successfully — malformed fields are data
(`none`), never a fatal error. -/
theorem claim_C6 (src : Option (List Row)) :
    (load_from_source src = Except.error DataLoadError.sourceUnreadable ↔ src = none)
    ∧ (∀ rows : List Row, src = some rows →
        load_from_source src = Except.ok (load_data rows)) := by
  constructor
  · cases src <;> simp [load_from_source, read_csv]
  · intro rows h
    subst h
    rfl

/-- Witness for C6: an unreadable source raises the error; a readable one
succeeds. -/
theorem claim_C6_witness :
    load_from_source none = Except.error DataLoadError.sourceUnreadable
    ∧ load_from_source (some [rowW3]) = Except.ok (load_data [rowW3]) :=
  ⟨(claim_C6 none).1.mpr rfl, (claim_C6 (some [rowW3])).2 [rowW3] rfl⟩

/-- Claim C7: the slider callback is deterministic and side-effect-free on
the dataset: its output view and title depend only on the dataset and the
year (not on the stale view or title it overwrites), and the dataset
component of the state is left unchanged. -/
theorem claim_C7 (s t : AppState) (yr : Int) (h : s.data = t.data) :
    (update_plot yr s).sourceData = (update_plot yr t).sourceData
    ∧ (update_plot yr s).titleText = (update_plot yr t).titleText
    ∧ (update_plot yr s).data = s.data := by
  refine ⟨?_, rfl, rfl⟩
  simp [update_plot, h]

/-- Witness for C7: two states over the same dataset but different stale
titles produce the same view and title, and the dataset is untouched. -/
theorem claim_C7_witness :
    (update_plot 1964 stateW7a).sourceData = (update_plot 1964 stateW7b).sourceData
    ∧ (update_plot 1964 stateW7a).titleText = (update_plot 1964 stateW7b).titleText
    ∧ (update_plot 1964 stateW7a).data = stateW7a.data :=
  claim_C7 stateW7a stateW7b 1964 rfl

/-- Claim C8: `load_data` is deterministic — two runs over the same source
contents yield identical datasets. -/
theorem claim_C8 (src1 src2 : List Row) (h : src1 = src2) :
    load_data src1 = load_data src2 := by
  rw [h]

/-- Witness for C8 at a concrete source. -/
theorem claim_C8_witness : load_data [rowW8] = load_data [rowW8] :=
  claim_C8 [rowW8] [rowW8] rfl

/-- Claim C9: `load_data` preserves the original relative order of the
retained rows — on every field it does not rewrite (`Country`, `Region`,
`Year`, `Fertility`, `lifeExp`), the output is exactly the input sequence
with the dropped rows removed, with no regrouping or re-sorting. -/
theorem claim_C9 (rows : List Row) :
    (load_data rows).map coreFields = (rows.filter keepRow).map coreFields :=
  load_data_map coreFields (fun _ _ => rfl) (fun _ => rfl) rows

/-- Claim C10: positionally, every retained row of the output of
`load_data` agrees with the corresponding input row on all fields other
than `pop` and `ID`: `Country`, `Region`, `Year`, `Fertility`, `lifeExp`
are unchanged. -/
theorem claim_C10 (rows : List Row) (i : Nat) :
    ((load_data rows)[i]?).map coreFields
      = ((rows.filter keepRow)[i]?).map coreFields := by
  rw [← List.getElem?_map, ← List.getElem?_map,
    load_data_map coreFields (fun _ _ => rfl) (fun _ => rfl) rows]
